import Mathlib

/-!
Verification development for the WalletGui NodeAdapter
(src/src/WalletGui/NodeAdapter.cpp).

The adapter owns at most one node handle (the C++ member m_node, a
nullable pointer, modelled as Option Node), decides between an
RPC-backed node and an in-process node, and bridges worker-thread
results back to the caller through queued Qt signals.  Qt's queued
signal delivery is modelled by recording the list of emitted
notifications in order; the caller's nested QEventLoop waits are
modelled by selecting the first matching notification of that list.
-/

namespace WalletGui

/-- A C++ exception as far as the adapter's catch clauses can tell them
apart: the catch blocks in NodeAdapter.cpp name std::runtime_error
only, so any other thrown type takes the uncaught path. -/
inductive CppExc where
  | runtimeError : CppExc
  | otherExc : CppExc
deriving DecidableEq, Repr

/-- Modelled from the spec: the NodeHandle contract of section 4.3.  The
Node class itself (createRpcNode / createInprocessNode and the INode
wrappers) is repository code that is not under src/, so a handle is
modelled by the observable behaviour the adapter relies on: the
synchronous read accessors, with the two payment-id operations allowed
to throw. -/
structure Node where
  peerCount : Nat
  lastKnownBlockHeight : Nat
  lastLocalBlockHeight : Nat
  lastLocalBlockTimestamp : Nat
  convertPaymentIdFn : String → Except CppExc String
  extractPaymentIdFn : String → Except CppExc String

/-- The notifications (Qt signals) the adapter and its worker emit, in
the order they appear in NodeAdapter.cpp. -/
inductive Notification where
  | peerCountUpdated (count : Nat)
  | localBlockchainUpdated (height : Nat)
  | lastKnownBlockHeightUpdated (height : Nat)
  | nodeInitCompleted
  | nodeInitFailed (code : Nat)
  | nodeDeinitCompleted
deriving DecidableEq, Repr

/-- Modelled from the spec: CryptoNote::error::INTERNAL_WALLET_ERROR,
the generic internal-error code from Wallet/WalletErrors.h, a header
that is not under src/.  Only the facts that it is a fixed code and
that it is nonzero (error enum values start at 1) matter here. -/
def INTERNAL_WALLET_ERROR : Nat := 4

/-- What the in-process handle's asynchronous init call does on a given
run, as observed by the worker: either it invokes the completion
callback with an error code (0 meaning success, matching the operator
bool of std::error_code) and then returns, or it throws. -/
inductive InitBehavior where
  | callback (err : Nat)
  | throwsExc (e : CppExc)
deriving DecidableEq, Repr

/-- The observable result of one invocation of the worker's start
method: the final value of the output slot *_node once start is done,
the value that slot had at the moment the init-outcome signal (if any)
was emitted, the emitted notifications in order, and the exception, if
any, that escaped start. -/
structure StartResult where
  nodeSlot : Option Node
  slotAtInitSignal : Option Node
  emitted : List Notification
  propagated : Option CppExc

/-- InProcessNodeInitializer::start (NodeAdapter.cpp lines 77-100).
The assignment (*_node) = createInprocessNode(...) stands before the
try block, so an exception thrown by construction escapes start and the
slot keeps its prior value.  The try block covers only the init call
and catches std::runtime_error alone, translating it into
nodeInitFailedSignal(INTERNAL_WALLET_ERROR) and returning early,
leaving the constructed handle in the slot.  When init returns normally
(its callback, which emits nodeInitCompletedSignal on success and
nodeInitFailedSignal(err) on failure, has run), start deletes the
handle, nulls the slot and emits nodeDeinitCompletedSignal. -/
def InProcessNodeInitializer.start (slot0 : Option Node)
    (construction : Except CppExc Node) (behavior : InitBehavior) : StartResult :=
  match construction with
  | Except.error e =>
      { nodeSlot := slot0, slotAtInitSignal := slot0, emitted := [], propagated := some e }
  | Except.ok node =>
      match behavior with
      | InitBehavior.callback err =>
          let cbEmits := if err = 0 then [Notification.nodeInitCompleted]
            else [Notification.nodeInitFailed err]
          { nodeSlot := none, slotAtInitSignal := some node,
            emitted := cbEmits ++ [Notification.nodeDeinitCompleted], propagated := none }
      | InitBehavior.throwsExc CppExc.runtimeError =>
          { nodeSlot := some node, slotAtInitSignal := some node,
            emitted := [Notification.nodeInitFailed INTERNAL_WALLET_ERROR],
            propagated := none }
      | InitBehavior.throwsExc CppExc.otherExc =>
          { nodeSlot := some node, slotAtInitSignal := some node,
            emitted := [], propagated := some CppExc.otherExc }

/-- Which of the two racing parties wins the race between the
controller's wait loop resuming (after the worker queued its
init-outcome signal) and the worker's subsequent teardown of the
handle.  Qt queued connections allow both orders. -/
inductive Schedule where
  | controllerFirst
  | workerFirst
deriving DecidableEq, Repr

/-- How a blocking adapter call ends: it returns a boolean, or an
assertion (Q_ASSERT / Q_CHECK_PTR) fires, or its wait loop never
receives a matching signal and the call blocks forever. -/
inductive RunOutcome where
  | returns (b : Bool)
  | assertionFailure
  | blocksForever
deriving DecidableEq, Repr

/-- The observable result of one run of NodeAdapter::initInProcessNode:
how the call ends, the stable value of m_node once the worker has also
finished, and the height notifications the adapter itself emitted. -/
structure InProcResult where
  outcome : RunOutcome
  finalSlot : Option Node
  notifs : List Notification

/-- The wait loop in NodeAdapter::initInProcessNode exits on
nodeInitCompletedSignal (connected to QEventLoop::quit, exit code 0) or
nodeInitFailedSignal (connected to QEventLoop::exit, exit code = the
signalled error code). -/
def isInitOutcomeSignal : Notification → Bool
  | Notification.nodeInitCompleted => true
  | Notification.nodeInitFailed _ => true
  | _ => false

/-- Exit code of the wait loop for the signal that ended it. -/
def waitLoopExecResult : Notification → Nat
  | Notification.nodeInitFailed c => c
  | _ => 0

/-- NodeAdapter::initInProcessNode (NodeAdapter.cpp lines 210-226).
Q_ASSERT(m_node == nullptr) guards entry.  The initNodeSignal hands the
worker the address of m_node as the output slot; the wait loop exits on
the first init-outcome signal the worker emitted.  A nonzero exit code
returns false.  On exit code 0 the adapter reads
getLastLocalBlockHeight() and getLastKnownBlockHeight() through m_node
(Q_CHECK_PTR inside each accessor) and re-emits both heights; which
value m_node holds at that instant depends on whether the controller
resumed before the worker's teardown nulled the slot. -/
def NodeAdapter.initInProcessNode (slot0 : Option Node)
    (construction : Except CppExc Node) (behavior : InitBehavior)
    (sched : Schedule) : InProcResult :=
  match slot0 with
  | some _ => { outcome := RunOutcome.assertionFailure, finalSlot := slot0, notifs := [] }
  | none =>
      let s := InProcessNodeInitializer.start none construction behavior
      match s.emitted.find? isInitOutcomeSignal with
      | none => { outcome := RunOutcome.blocksForever, finalSlot := s.nodeSlot, notifs := [] }
      | some sig =>
          if waitLoopExecResult sig ≠ 0 then
            { outcome := RunOutcome.returns false, finalSlot := s.nodeSlot, notifs := [] }
          else
            let querySlot := match sched with
              | Schedule.controllerFirst => s.slotAtInitSignal
              | Schedule.workerFirst => s.nodeSlot
            match querySlot with
            | none => { outcome := RunOutcome.assertionFailure, finalSlot := s.nodeSlot, notifs := [] }
            | some n =>
                { outcome := RunOutcome.returns true, finalSlot := s.nodeSlot,
                  notifs := [Notification.localBlockchainUpdated n.lastLocalBlockHeight,
                             Notification.lastKnownBlockHeightUpdated n.lastKnownBlockHeight] }

/-- The completion callback NodeAdapter::init hands the RPC handle
(NodeAdapter.cpp lines 161-163): its body is Q_UNUSED(_err), so it
emits nothing whatever error code the handle delivers. -/
def rpcInitCallback (_err : Nat) : List Notification := []

/-- The observable result of one run of NodeAdapter::init. -/
structure InitRunResult where
  outcome : RunOutcome
  m_node : Option Node
  emitted : List Notification
  timerStopped : Bool
  rpcDestroyed : Bool
  inProcessAttempted : Bool

/-- NodeAdapter::init (NodeAdapter.cpp lines 151-178).  An RPC handle
is created and installed in m_node, a 3000 ms single-shot timer starts,
and the handle's init is called with the error-ignoring callback.  The
wait loop exits on the timer's timeout or on a peerCountUpdatedSignal
or localBlockchainUpdatedSignal from the RPC handle;
livenessBeforeTimeout records which happened first.  If the timer is
still active after the loop (a liveness signal won), it is stopped,
nodeInitCompletedSignal is emitted and init returns true with the RPC
handle still installed.  Otherwise the RPC handle is deleted, m_node is
set to nullptr, and init returns whatever initInProcessNode returns,
invoked with the now-null slot. -/
def NodeAdapter.init (rpcNode : Node) (rpcErr : Nat)
    (livenessBeforeTimeout : Bool) (construction : Except CppExc Node)
    (behavior : InitBehavior) (sched : Schedule) : InitRunResult :=
  let cbNotifs := rpcInitCallback rpcErr
  if livenessBeforeTimeout then
    { outcome := RunOutcome.returns true, m_node := some rpcNode,
      emitted := cbNotifs ++ [Notification.nodeInitCompleted],
      timerStopped := true, rpcDestroyed := false, inProcessAttempted := false }
  else
    let r := NodeAdapter.initInProcessNode none construction behavior sched
    { outcome := r.outcome, m_node := r.finalSlot,
      emitted := cbNotifs ++ r.notifs,
      timerStopped := false, rpcDestroyed := true, inProcessAttempted := true }

/-- The adapter state NodeAdapter::deinit looks at: the m_node slot and
whether the worker thread m_nodeInitializerThread is running. -/
structure AdapterLifeState where
  m_node : Option Node
  threadRunning : Bool

/-- NodeAdapter::deinit (NodeAdapter.cpp lines 228-242).  With m_node
null it does nothing.  With a handle and the worker thread not running
(the RPC case) it deletes the handle and nulls the slot directly.  With
the worker thread running it calls stop on the handle and waits for
nodeDeinitCompletedSignal, which only the tail of the worker's start
method emits while also nulling the slot and which therefore arrives
only when such a teardown is still pending (pendingWorkerTeardown);
otherwise the wait loop never exits.  The returned value is none when
the call blocks forever, some of the state after return otherwise. -/
def NodeAdapter.deinit (st : AdapterLifeState) (pendingWorkerTeardown : Bool) :
    Option AdapterLifeState :=
  match st.m_node with
  | none => some st
  | some _ =>
      if st.threadRunning then
        if pendingWorkerTeardown then
          some { m_node := none, threadRunning := false }
        else
          none
      else
        some { m_node := none, threadRunning := st.threadRunning }

/-- Result of one synchronous read accessor call, separating a normal
return from a Q_ASSERT / Q_CHECK_PTR contract violation on a null
handle and from a C++ exception propagating to the caller. -/
inductive AccessorResult (α : Type) where
  | ok (a : α)
  | contractViolation
  | raised (e : CppExc)
deriving DecidableEq, Repr

/-- NodeAdapter::getPeerCount (lines 127-130): Q_ASSERT(m_node !=
nullptr), then delegate. -/
def NodeAdapter.getPeerCount (m_node : Option Node) : AccessorResult Nat :=
  match m_node with
  | none => AccessorResult.contractViolation
  | some n => AccessorResult.ok n.peerCount

/-- NodeAdapter::getLastKnownBlockHeight (lines 180-183):
Q_CHECK_PTR(m_node), then delegate. -/
def NodeAdapter.getLastKnownBlockHeight (m_node : Option Node) : AccessorResult Nat :=
  match m_node with
  | none => AccessorResult.contractViolation
  | some n => AccessorResult.ok n.lastKnownBlockHeight

/-- NodeAdapter::getLastLocalBlockHeight (lines 185-188):
Q_CHECK_PTR(m_node), then delegate. -/
def NodeAdapter.getLastLocalBlockHeight (m_node : Option Node) : AccessorResult Nat :=
  match m_node with
  | none => AccessorResult.contractViolation
  | some n => AccessorResult.ok n.lastLocalBlockHeight

/-- NodeAdapter::getLastLocalBlockTimestamp (lines 190-193):
Q_CHECK_PTR(m_node), then delegate; the QDateTime::fromTime_t wrapping
is kept as the raw timestamp value. -/
def NodeAdapter.getLastLocalBlockTimestamp (m_node : Option Node) : AccessorResult Nat :=
  match m_node with
  | none => AccessorResult.contractViolation
  | some n => AccessorResult.ok n.lastLocalBlockTimestamp

/-- NodeAdapter::convertPaymentId (lines 132-139): Q_CHECK_PTR(m_node);
the delegated call sits in a try block whose catch clause names
std::runtime_error and falls through to return std::string(), so a
runtime_error from the handle yields the empty string while any other
exception escapes. -/
def NodeAdapter.convertPaymentId (m_node : Option Node)
    (paymentIdString : String) : AccessorResult String :=
  match m_node with
  | none => AccessorResult.contractViolation
  | some n =>
      match n.convertPaymentIdFn paymentIdString with
      | Except.ok r => AccessorResult.ok r
      | Except.error CppExc.runtimeError => AccessorResult.ok ""
      | Except.error CppExc.otherExc => AccessorResult.raised CppExc.otherExc

/-- NodeAdapter::extractPaymentId (lines 141-144): Q_CHECK_PTR(m_node),
then delegate with no try block, so any exception from the handle
propagates to the caller. -/
def NodeAdapter.extractPaymentId (m_node : Option Node)
    (extra : String) : AccessorResult String :=
  match m_node with
  | none => AccessorResult.contractViolation
  | some n =>
      match n.extractPaymentIdFn extra with
      | Except.ok r => AccessorResult.ok r
      | Except.error e => AccessorResult.raised e

/-- NodeAdapter::createWallet (lines 146-149): Q_CHECK_PTR(m_node),
then delegate; the returned wallet object is opaque here. -/
def NodeAdapter.createWallet (m_node : Option Node) : AccessorResult Unit :=
  match m_node with
  | none => AccessorResult.contractViolation
  | some _ => AccessorResult.ok ()

/-- Modelled from the spec: the Settings singleton's getters consumed
by makeNetNodeConfig (section 6); Settings.cpp is not under src/.  The
two port getters are modelled as unbounded naturals so the uint16_t
casts in makeNetNodeConfig are visible. -/
structure WalletGuiSettings where
  p2pBindIp : String
  p2pBindPort : Nat
  p2pExternalPort : Nat
  allowLocalIp : Bool
  hideMyPort : Bool
  dataDir : String
  peers : List String
  priorityNodes : List String
  exclusiveNodes : List String
  seedNodes : List String
  testnet : Bool

/-- A boost::program_options variable_value as NodeAdapter builds them:
a string, a uint16_t port, a boolean flag, or a string vector. -/
inductive OptionValue where
  | strVal (s : String)
  | portVal (n : Nat)
  | flagVal (b : Bool)
  | listVal (l : List String)
deriving DecidableEq, Repr

/-- The anonymous-namespace helper convertStringListToVector
(NodeAdapter.cpp lines 50-57): pushes each element in order. -/
def convertStringListToVector : List String → List String
  | [] => []
  | s :: rest => s :: convertStringListToVector rest

/-- The network configuration snapshot makeNetNodeConfig builds:
CryptoNote::NetNodeConfig itself is not under src/, so config.init is
modelled as recording the options map handed to it, and setTestnet as
recording the flag. -/
structure NetNodeConfig where
  options : List (String × OptionValue)
  testnet : Bool

/-- NodeAdapter::makeNetNodeConfig (NodeAdapter.cpp lines 253-292).
The six unconditional options are inserted, each of the four node-list
options only when the converted list is non-empty, then config.init
receives the map and setTestnet the settings flag. -/
def NodeAdapter.makeNetNodeConfig (s : WalletGuiSettings) : NetNodeConfig :=
  let base := [("p2p-bind-ip", OptionValue.strVal s.p2pBindIp),
               ("p2p-bind-port", OptionValue.portVal (s.p2pBindPort % 65536)),
               ("p2p-external-port", OptionValue.portVal (s.p2pExternalPort % 65536)),
               ("allow-local-ip", OptionValue.flagVal s.allowLocalIp)]
  let peerList := convertStringListToVector s.peers
  let withPeers := if peerList.isEmpty then base
    else base ++ [("add-peer", OptionValue.listVal peerList)]
  let priorityNodeList := convertStringListToVector s.priorityNodes
  let withPriority := if priorityNodeList.isEmpty then withPeers
    else withPeers ++ [("add-priority-node", OptionValue.listVal priorityNodeList)]
  let exclusiveNodeList := convertStringListToVector s.exclusiveNodes
  let withExclusive := if exclusiveNodeList.isEmpty then withPriority
    else withPriority ++ [("add-exclusive-node", OptionValue.listVal exclusiveNodeList)]
  let seedNodeList := convertStringListToVector s.seedNodes
  let withSeed := if seedNodeList.isEmpty then withExclusive
    else withExclusive ++ [("seed-node", OptionValue.listVal seedNodeList)]
  { options := withSeed ++ [("hide-my-port", OptionValue.flagVal s.hideMyPort),
                            ("data-dir", OptionValue.strVal s.dataDir)],
    testnet := s.testnet }

/-- Membership of an option key in the built snapshot. -/
def NetNodeConfig.containsOption (cfg : NetNodeConfig) (key : String) : Bool :=
  cfg.options.any (fun p => p.1 == key)

/-- A concrete handle for evaluating the model at specific inputs. -/
def sampleNode : Node :=
  { peerCount := 3, lastKnownBlockHeight := 10, lastLocalBlockHeight := 7,
    lastLocalBlockTimestamp := 0,
    convertPaymentIdFn := fun _ => Except.ok "",
    extractPaymentIdFn := fun _ => Except.ok "" }

/-- A concrete handle whose payment-id operations throw
std::runtime_error. -/
def throwingNode : Node :=
  { peerCount := 0, lastKnownBlockHeight := 0, lastLocalBlockHeight := 0,
    lastLocalBlockTimestamp := 0,
    convertPaymentIdFn := fun _ => Except.error CppExc.runtimeError,
    extractPaymentIdFn := fun _ => Except.error CppExc.runtimeError }

/-- convertStringListToVector copies its input list element by element. -/
theorem convertStringListToVector_eq (l : List String) :
    convertStringListToVector l = l := by
  induction l with
  | nil => rfl
  | cons a t ih => simp [convertStringListToVector, ih]

/-- C1: when a peer-count-updated or local-blockchain-updated signal
from the RPC handle arrives strictly before the 3000 ms timer fires,
NodeAdapter::init stops the timer, emits nodeInitCompletedSignal,
returns true, keeps the RPC handle installed as the single active
handle in m_node, and never enters the in-process path, whatever the
RPC error code, the worker's would-be behaviour or the schedule. -/
theorem NodeAdapter.init_liveness_before_timeout (rpcNode : Node) (rpcErr : Nat)
    (construction : Except CppExc Node) (behavior : InitBehavior) (sched : Schedule) :
    NodeAdapter.init rpcNode rpcErr true construction behavior sched =
      { outcome := RunOutcome.returns true, m_node := some rpcNode,
        emitted := [Notification.nodeInitCompleted], timerStopped := true,
        rpcDestroyed := false, inProcessAttempted := false } := rfl

/-- C2: when no liveness signal arrives before the 3000 ms timer fires,
NodeAdapter::init destroys the RPC handle, enters the in-process path
with the m_node slot set to null (the literal none argument below), and
its outcome and final slot are exactly those of
NodeAdapter::initInProcessNode on that run. -/
theorem NodeAdapter.init_timeout_falls_back (rpcNode : Node) (rpcErr : Nat)
    (construction : Except CppExc Node) (behavior : InitBehavior) (sched : Schedule) :
    (NodeAdapter.init rpcNode rpcErr false construction behavior sched).rpcDestroyed = true ∧
    (NodeAdapter.init rpcNode rpcErr false construction behavior sched).inProcessAttempted = true ∧
    (NodeAdapter.init rpcNode rpcErr false construction behavior sched).m_node =
      (NodeAdapter.initInProcessNode none construction behavior sched).finalSlot ∧
    (NodeAdapter.init rpcNode rpcErr false construction behavior sched).outcome =
      (NodeAdapter.initInProcessNode none construction behavior sched).outcome :=
  ⟨rfl, rfl, rfl, rfl⟩

/-- C3 counterexample: a run in which the worker emits init-failed (the
in-process handle's init call threw std::runtime_error, translated into
nodeInitFailedSignal) where initInProcessNode returns false but the
handle is still installed in the slot, against the claim's "no handle
installed". -/
theorem NodeAdapter.initInProcessNode_init_throw_cex :
    (NodeAdapter.initInProcessNode none (Except.ok sampleNode)
        (InitBehavior.throwsExc CppExc.runtimeError) Schedule.workerFirst).outcome =
      RunOutcome.returns false ∧
    (NodeAdapter.initInProcessNode none (Except.ok sampleNode)
        (InitBehavior.throwsExc CppExc.runtimeError) Schedule.workerFirst).finalSlot.isSome =
      true :=
  ⟨rfl, rfl⟩

/-- C3 as amended: when the worker's init callback reports a nonzero
error code, initInProcessNode returns false with no handle installed
and no height notifications; when the init call throws, it returns
false with no height notifications but with the handle still installed;
when the callback reports success, then if the controller's wait loop
resumes before the worker's teardown it re-emits the handle's local and
known heights exactly once each and returns true, while if the teardown
wins the race the height query is a null-handle contract violation. -/
theorem NodeAdapter.initInProcessNode_cases (node : Node) (err : Nat) (sched : Schedule) :
    NodeAdapter.initInProcessNode none (Except.ok node)
        (InitBehavior.callback (err + 1)) sched =
      { outcome := RunOutcome.returns false, finalSlot := none, notifs := [] } ∧
    NodeAdapter.initInProcessNode none (Except.ok node)
        (InitBehavior.throwsExc CppExc.runtimeError) sched =
      { outcome := RunOutcome.returns false, finalSlot := some node, notifs := [] } ∧
    NodeAdapter.initInProcessNode none (Except.ok node)
        (InitBehavior.callback 0) Schedule.controllerFirst =
      { outcome := RunOutcome.returns true, finalSlot := none,
        notifs := [Notification.localBlockchainUpdated node.lastLocalBlockHeight,
                   Notification.lastKnownBlockHeightUpdated node.lastKnownBlockHeight] } ∧
    (NodeAdapter.initInProcessNode none (Except.ok node)
        (InitBehavior.callback 0) Schedule.workerFirst).outcome =
      RunOutcome.assertionFailure :=
  ⟨rfl, rfl, rfl, rfl⟩

/-- C4 counterexample: when constructing the in-process node throws,
the exception escapes the worker's start (the assignment stands before
the try block) and no init-failed notification is emitted, against the
claim's "caught at the worker boundary". -/
theorem InProcessNodeInitializer.start_construction_throw_cex :
    (InProcessNodeInitializer.start none (Except.error CppExc.runtimeError)
        (InitBehavior.callback 0)).propagated = some CppExc.runtimeError ∧
    (InProcessNodeInitializer.start none (Except.error CppExc.runtimeError)
        (InitBehavior.callback 0)).emitted = [] :=
  ⟨rfl, rfl⟩

/-- C4 as amended: the exception the worker boundary catches and
translates into init-failed with the generic internal-error code is a
std::runtime_error thrown by the handle's init call; an exception
thrown while constructing the in-process node is not caught and
propagates out of start with nothing emitted. -/
theorem InProcessNodeInitializer.start_exception_translation (slot0 : Option Node)
    (node : Node) (e : CppExc) (behavior : InitBehavior) :
    (InProcessNodeInitializer.start slot0 (Except.ok node)
        (InitBehavior.throwsExc CppExc.runtimeError)).emitted =
      [Notification.nodeInitFailed INTERNAL_WALLET_ERROR] ∧
    (InProcessNodeInitializer.start slot0 (Except.ok node)
        (InitBehavior.throwsExc CppExc.runtimeError)).propagated = none ∧
    (InProcessNodeInitializer.start slot0 (Except.error e) behavior).propagated = some e ∧
    (InProcessNodeInitializer.start slot0 (Except.error e) behavior).emitted = [] :=
  ⟨rfl, rfl, rfl, rfl⟩

/-- C5 counterexample: a run in which construction does not throw (the
init call throws std::runtime_error instead) where start returns with
the handle still in the slot and no deinit-completed notification,
against the claim's unconditional teardown. -/
theorem InProcessNodeInitializer.start_init_throw_keeps_handle_cex :
    (InProcessNodeInitializer.start none (Except.ok sampleNode)
        (InitBehavior.throwsExc CppExc.runtimeError)).nodeSlot.isSome = true ∧
    Notification.nodeDeinitCompleted ∉
      (InProcessNodeInitializer.start none (Except.ok sampleNode)
        (InitBehavior.throwsExc CppExc.runtimeError)).emitted :=
  ⟨rfl, by decide⟩

/-- C5 as amended: when the handle's init call returns normally (its
callback ran, with any error code), start destroys the handle, nulls
the slot and emits deinit-completed as its last notification before
returning; when the init call throws std::runtime_error instead, start
returns early with the handle still installed and no deinit-completed
notification. -/
theorem InProcessNodeInitializer.start_teardown_after_callback (slot0 : Option Node)
    (node : Node) (err : Nat) :
    (InProcessNodeInitializer.start slot0 (Except.ok node)
        (InitBehavior.callback err)).nodeSlot = none ∧
    (InProcessNodeInitializer.start slot0 (Except.ok node)
        (InitBehavior.callback err)).emitted.getLast? =
      some Notification.nodeDeinitCompleted ∧
    (InProcessNodeInitializer.start slot0 (Except.ok node)
        (InitBehavior.throwsExc CppExc.runtimeError)).nodeSlot = some node ∧
    Notification.nodeDeinitCompleted ∉
      (InProcessNodeInitializer.start slot0 (Except.ok node)
        (InitBehavior.throwsExc CppExc.runtimeError)).emitted := by
  refine ⟨rfl, ?hlast, rfl, ?hmem⟩
  · by_cases h : err = 0 <;> simp [InProcessNodeInitializer.start, h]
  · simp [InProcessNodeInitializer.start]

/-- C6: NodeAdapter::deinit is idempotent: with no active handle it
returns at once leaving the state untouched; whenever it returns, the
active handle is null afterwards; and a second call after a completed
first call returns the same state again. -/
theorem NodeAdapter.deinit_idempotent (st : AdapterLifeState) (pending : Bool) :
    (st.m_node = none → NodeAdapter.deinit st pending = some st) ∧
    (∀ st', NodeAdapter.deinit st pending = some st' → st'.m_node = none) ∧
    (∀ st' pending', NodeAdapter.deinit st pending = some st' →
      NodeAdapter.deinit st' pending' = some st') := by
  obtain ⟨mn, tr⟩ := st
  refine ⟨fun h => ?_, fun st' h => ?_, fun st' pending' h => ?_⟩
  · have h2 : mn = none := h
    subst h2
    rfl
  all_goals
    cases mn <;> cases tr <;> cases pending <;>
      first
        | exact Option.noConfusion h
        | (injection h with h2; subst h2; rfl)

/-- C6 witness: deinit on the handle-free state is a completed no-op. -/
theorem NodeAdapter.deinit_idempotent_witness :
    NodeAdapter.deinit { m_node := none, threadRunning := false } false =
      some { m_node := none, threadRunning := false } :=
  (NodeAdapter.deinit_idempotent { m_node := none, threadRunning := false } false).1 rfl

/-- C7: every read accessor called while m_node is null ends in a
Q_ASSERT / Q_CHECK_PTR contract violation, never a normal return. -/
theorem NodeAdapter.accessors_null_handle_contract_violation :
    NodeAdapter.getPeerCount none = AccessorResult.contractViolation ∧
    NodeAdapter.getLastKnownBlockHeight none = AccessorResult.contractViolation ∧
    NodeAdapter.getLastLocalBlockHeight none = AccessorResult.contractViolation ∧
    NodeAdapter.getLastLocalBlockTimestamp none = AccessorResult.contractViolation ∧
    (∀ s, NodeAdapter.convertPaymentId none s = AccessorResult.contractViolation) ∧
    (∀ s, NodeAdapter.extractPaymentId none s = AccessorResult.contractViolation) ∧
    NodeAdapter.createWallet none = AccessorResult.contractViolation :=
  ⟨rfl, rfl, rfl, rfl, fun _ => rfl, fun _ => rfl, rfl⟩

/-- C8 counterexample: extractPaymentId has no try block, so when the
underlying handle operation throws, the exception reaches the caller
instead of an empty default, against the claim that every accessor
swallows underlying failures. -/
theorem NodeAdapter.extractPaymentId_propagates_cex :
    NodeAdapter.extractPaymentId (some throwingNode) "deadbeef" =
      AccessorResult.raised CppExc.runtimeError :=
  rfl

/-- C8 as amended: convertPaymentId swallows a std::runtime_error from
the handle and returns the empty string, but extractPaymentId
propagates whatever exception the underlying operation throws. -/
theorem NodeAdapter.paymentId_error_translation (n : Node) (s : String) (e : CppExc) :
    (n.convertPaymentIdFn s = Except.error CppExc.runtimeError →
      NodeAdapter.convertPaymentId (some n) s = AccessorResult.ok "") ∧
    (n.extractPaymentIdFn s = Except.error e →
      NodeAdapter.extractPaymentId (some n) s = AccessorResult.raised e) := by
  constructor
  · intro h
    simp [NodeAdapter.convertPaymentId, h]
  · intro h
    simp [NodeAdapter.extractPaymentId, h]

/-- C8 witness: on the handle whose payment-id operations throw
std::runtime_error, conversion yields the empty string and extraction
propagates the exception. -/
theorem NodeAdapter.paymentId_error_translation_witness :
    NodeAdapter.convertPaymentId (some throwingNode) "zz" = AccessorResult.ok "" ∧
    NodeAdapter.extractPaymentId (some throwingNode) "zz" =
      AccessorResult.raised CppExc.runtimeError :=
  ⟨(NodeAdapter.paymentId_error_translation throwingNode "zz" CppExc.runtimeError).1 rfl,
   (NodeAdapter.paymentId_error_translation throwingNode "zz" CppExc.runtimeError).2 rfl⟩

/-- C9: the RPC handle's completion callback discards its error code
(Q_UNUSED), so two runs of NodeAdapter::init identical except for that
code are equal in every observable, and the RPC path succeeds exactly
when a liveness signal beats the timer. -/
theorem NodeAdapter.init_independent_of_rpc_error_code (rpcNode : Node) (e1 e2 : Nat)
    (liveness : Bool) (construction : Except CppExc Node) (behavior : InitBehavior)
    (sched : Schedule) :
    NodeAdapter.init rpcNode e1 liveness construction behavior sched =
      NodeAdapter.init rpcNode e2 liveness construction behavior sched ∧
    (NodeAdapter.init rpcNode e1 true construction behavior sched).outcome =
      RunOutcome.returns true :=
  ⟨rfl, rfl⟩

/-- C10: the snapshot built by makeNetNodeConfig always carries the six
unconditional options and the testnet flag, and carries each node-list
option exactly when the corresponding settings list is non-empty. -/
theorem NodeAdapter.makeNetNodeConfig_options_present (s : WalletGuiSettings) :
    (NodeAdapter.makeNetNodeConfig s).containsOption "p2p-bind-ip" = true ∧
    (NodeAdapter.makeNetNodeConfig s).containsOption "p2p-bind-port" = true ∧
    (NodeAdapter.makeNetNodeConfig s).containsOption "p2p-external-port" = true ∧
    (NodeAdapter.makeNetNodeConfig s).containsOption "allow-local-ip" = true ∧
    (NodeAdapter.makeNetNodeConfig s).containsOption "hide-my-port" = true ∧
    (NodeAdapter.makeNetNodeConfig s).containsOption "data-dir" = true ∧
    (NodeAdapter.makeNetNodeConfig s).testnet = s.testnet ∧
    ((NodeAdapter.makeNetNodeConfig s).containsOption "add-peer" = true ↔
      s.peers ≠ []) ∧
    ((NodeAdapter.makeNetNodeConfig s).containsOption "add-priority-node" = true ↔
      s.priorityNodes ≠ []) ∧
    ((NodeAdapter.makeNetNodeConfig s).containsOption "add-exclusive-node" = true ↔
      s.exclusiveNodes ≠ []) ∧
    ((NodeAdapter.makeNetNodeConfig s).containsOption "seed-node" = true ↔
      s.seedNodes ≠ []) := by
  simp only [NodeAdapter.makeNetNodeConfig, NetNodeConfig.containsOption,
    convertStringListToVector_eq]
  by_cases h1 : s.peers.isEmpty <;>
    by_cases h2 : s.priorityNodes.isEmpty <;>
      by_cases h3 : s.exclusiveNodes.isEmpty <;>
        by_cases h4 : s.seedNodes.isEmpty <;>
          simp_all [List.isEmpty_iff, List.any_append]

end WalletGui
